import Mathlib

/-
  Verification of the NIF binding layer in cpp_src/sgp4_nif.cpp.

  The binding wraps the external SGP4 propagation library (SGP4.h, not part of
  this repository): `SGP4Funcs::twoline2rv` decodes two TLE lines into an
  `elsetrec` record, and `SGP4Funcs::sgp4` propagates such a record to a time
  offset, mutating the record it is handed (possibly setting its `error`
  field) and returning a boolean plus position/velocity vectors in km, km/s.

  The embedding below models C doubles as rationals (every claim under
  verification compares results of *identical* sequences of floating-point
  operations, or multiplies by the exactly representable constant 1000, so
  exact arithmetic is faithful for these wrapper-level properties), Erlang
  binaries as byte lists (`List Nat`), and the two external SGP4 entry points
  as an abstract deterministic model `SGP4Model` that each definition takes
  as a parameter, exactly as the spec treats the algorithm: an external
  deterministic function consumed only through its signature.
-/

namespace Sgp4Nif

/-- A 3-vector of (exact-arithmetic) doubles: the `double r[3]` / `double v[3]`
buffers filled by `SGP4Funcs::sgp4`. -/
structure Vec3 where
  x : ℚ
  y : ℚ
  z : ℚ
  deriving DecidableEq, Repr

/-- The fields of the external library's `elsetrec` record that the binding
layer reads: the `error` code checked after `twoline2rv` and `sgp4`, the nine
orbital fields surfaced by `get_satellite_info`, and an opaque `scratch`
component standing for every other internal field (derived coefficients,
iteration state) that the binding copies but never inspects. -/
structure Elsetrec where
  error : Int
  satnum : String
  epochyr : Int
  epochdays : ℚ
  ecco : ℚ
  inclo : ℚ
  nodeo : ℚ
  argpo : ℚ
  mo : ℚ
  no_kozai : ℚ
  scratch : Nat
  deriving DecidableEq, Repr

/-- The outcome of one call `SGP4Funcs::sgp4(satrec, tsince, r, v)`: the
mutated copy of `satrec` (the routine writes scratch fields and possibly
`error` into the record it is handed), the boolean return value, and the
position (km) and velocity (km/s) written into `r` and `v`. -/
structure Sgp4Output where
  satrec : Elsetrec
  ok : Bool
  r : Vec3
  v : Vec3
  deriving DecidableEq, Repr

/-- The external SGP4 library, abstracted exactly as the spec does: two
deterministic functions. `twoline2rv` receives the bytes the binding memcpy'd
into its 70-byte buffers (the binding always calls it with typerun 'c',
typeinput 's', opsmode 'i', wgs72, so those arguments are not modelled) and
produces the initialized `elsetrec`; `sgp4` maps a record and a time offset
to an `Sgp4Output`. -/
structure SGP4Model where
  twoline2rv : List Nat → List Nat → Elsetrec
  sgp4 : Elsetrec → ℚ → Sgp4Output

/-- The length guard shared verbatim by `propagate_tle`, `propagate_tle_batch`
and `init_satellite`: `line1.size >= 70 || line2.size >= 70`. -/
def linesTooLong (line1 line2 : List Nat) : Bool :=
  70 ≤ line1.length || 70 ≤ line2.length

/-- Result term of a single propagation: `{:ok, {pos, vel}}` or
`{:error, msg}`. -/
inductive PropResult where
  | ok (pos : Vec3) (vel : Vec3)
  | err (msg : String)
  deriving DecidableEq, Repr

/-- The spec's UnitConverter `ToSI`: multiply every component by 1000
(km → m, km/s → m/s). -/
def kmToM (w : Vec3) : Vec3 :=
  Vec3.mk (w.x * 1000) (w.y * 1000) (w.z * 1000)

/-- The body of `propagate_tle` after the line-length guard: decode the two
lines with `twoline2rv`, fail on a nonzero `error`, run `sgp4`, fail if it
returns false or sets `error`, otherwise return each component times 1000. -/
def tleDecodeAndPropagate (m : SGP4Model) (line1 line2 : List Nat) (tsince : ℚ) : PropResult :=
  let satrec := m.twoline2rv line1 line2
  if satrec.error ≠ 0 then
    PropResult.err ("TLE initialization error: " ++ toString satrec.error)
  else
    let res := m.sgp4 satrec tsince
    if !res.ok || res.satrec.error ≠ 0 then
      PropResult.err ("Propagation error: " ++ toString res.satrec.error)
    else
      PropResult.ok
        (Vec3.mk (res.r.x * 1000) (res.r.y * 1000) (res.r.z * 1000))
        (Vec3.mk (res.v.x * 1000) (res.v.y * 1000) (res.v.z * 1000))

/-- `propagate_tle(line1, line2, tsince)` — the single-shot NIF
(sgp4_nif.cpp lines 22–85). -/
def propagate_tle (m : SGP4Model) (line1 line2 : List Nat) (tsince : ℚ) : PropResult :=
  if linesTooLong line1 line2 then
    PropResult.err "TLE lines too long"
  else
    tleDecodeAndPropagate m line1 line2 tsince

/-- An element of the Erlang list passed as the batch NIF's third argument:
either a float (the only shape `enif_get_double` accepts) or any other term. -/
inductive TimeEntry where
  | num (t : ℚ)
  | nonNum
  deriving DecidableEq, Repr

/-- The extraction loop of `propagate_tle_batch` (lines 110–116): walk the
list, reading each cell with `enif_get_double`; any non-float entry makes the
whole call fail with badarg (`none`). -/
def extractTimes : List TimeEntry → Option (List ℚ)
  | [] => some []
  | TimeEntry.num t :: rest => (extractTimes rest).map (fun ts => t :: ts)
  | TimeEntry.nonNum :: _ => none

/-- Result term of the batch NIF: a badarg exception, an overall
`{:error, msg}` tuple, or `{:ok, results}` with one entry per input time. -/
inductive BatchResult where
  | badarg
  | err (msg : String)
  | ok (items : List PropResult)
  deriving DecidableEq, Repr

/-- One iteration of the batch loop (lines 156–174 and 179–198): copy the
decoded record, run `sgp4` on the copy, and either scale the raw output by
1000 into an `{:ok, ...}` entry or record the fixed `"Propagation failed"`
error for this index. -/
def batchItem (m : SGP4Model) (satrec : Elsetrec) (t : ℚ) : PropResult :=
  let res := m.sgp4 satrec t
  if res.ok && res.satrec.error == 0 then
    PropResult.ok
      (Vec3.mk (res.r.x * 1000) (res.r.y * 1000) (res.r.z * 1000))
      (Vec3.mk (res.v.x * 1000) (res.v.y * 1000) (res.v.z * 1000))
  else
    PropResult.err "Propagation failed"

/-- What the batch loop makes of a single-shot outcome: identical on
success, and an error with the fixed batch message on failure. -/
def toBatchOutcome : PropResult → PropResult
  | PropResult.ok p v => PropResult.ok p v
  | PropResult.err _ => PropResult.err "Propagation failed"

/-- The body of `propagate_tle_batch` after the line-length guard: one
`twoline2rv` for the whole batch, a nonzero `error` failing the call, then
one `sgp4` per time on a private copy of the decoded record; results are
placed at the index of their time. -/
def batchDecodeAndPropagate (m : SGP4Model) (line1 line2 : List Nat)
    (times : List ℚ) : BatchResult :=
  let satrec := m.twoline2rv line1 line2
  if satrec.error ≠ 0 then
    BatchResult.err ("TLE initialization error: " ++ toString satrec.error)
  else
    BatchResult.ok (times.map (batchItem m satrec))

/-- `propagate_tle_batch(line1, line2, times)` — the batch NIF (lines
88–204). Order of checks follows the source: empty list → badarg, a
non-float entry → badarg, then the line-length guard, then decode and
per-time propagation. -/
def propagate_tle_batch (m : SGP4Model) (line1 line2 : List Nat)
    (entries : List TimeEntry) : BatchResult :=
  if entries.length = 0 then
    BatchResult.badarg
  else
    match extractTimes entries with
    | none => BatchResult.badarg
    | some times =>
      if linesTooLong line1 line2 then
        BatchResult.err "TLE lines too long"
      else
        batchDecodeAndPropagate m line1 line2 times

/-- The `SatelliteResource` struct (lines 13–20): the decoded record used as
an immutable template, the two retained line strings, and the initialized
flag. -/
structure SatelliteResource where
  satrec : Elsetrec
  line1 : List Nat
  line2 : List Nat
  initialized : Bool
  deriving DecidableEq, Repr

/-- `std::string(tle)` on the null-terminated buffer built by memcpy: the
stored string is the line's bytes up to (excluding) the first NUL byte. -/
def cString (bytes : List Nat) : List Nat :=
  bytes.takeWhile (fun b => b ≠ 0)

/-- Result term of `init_satellite`: `{:ok, resource}` or `{:error, msg}`. -/
inductive InitResult where
  | ok (sat : SatelliteResource)
  | err (msg : String)
  deriving DecidableEq, Repr

/-- The body of `init_satellite` after the line-length guard: the resource is
filled with `std::string` copies of the C buffers and the `twoline2rv`
output; a nonzero `error` releases the resource and returns the error tuple,
otherwise `initialized` is set to true and the resource term is returned. -/
def initDecode (m : SGP4Model) (line1 line2 : List Nat) : InitResult :=
  let satrec := m.twoline2rv line1 line2
  if satrec.error ≠ 0 then
    InitResult.err ("TLE initialization error: " ++ toString satrec.error)
  else
    InitResult.ok
      { satrec := satrec
        line1 := cString line1
        line2 := cString line2
        initialized := true }

/-- `init_satellite(line1, line2)` — handle creation (lines 211–274): the
line-length guard, then decode into a fresh resource. -/
def init_satellite (m : SGP4Model) (line1 line2 : List Nat) : InitResult :=
  if linesTooLong line1 line2 then
    InitResult.err "TLE lines too long"
  else
    initDecode m line1 line2

/-- `propagate_satellite(sat, tsince)` — handle-based propagation (lines
277–319), in state-passing form: the second component is the resource as the
call leaves it. The source checks `initialized`, copies the stored record
into `local_satrec`, runs `sgp4` on the copy, and never writes through
`sat_res`, so the stored resource is returned unchanged on every path. -/
def propagate_satellite (m : SGP4Model) (sat : SatelliteResource) (tsince : ℚ) :
    PropResult × SatelliteResource :=
  if !sat.initialized then
    (PropResult.err "Satellite not initialized", sat)
  else
    let local_satrec := sat.satrec
    let res := m.sgp4 local_satrec tsince
    if !res.ok || res.satrec.error ≠ 0 then
      (PropResult.err ("Propagation error: " ++ toString res.satrec.error), sat)
    else
      (PropResult.ok
        (Vec3.mk (res.r.x * 1000) (res.r.y * 1000) (res.r.z * 1000))
        (Vec3.mk (res.v.x * 1000) (res.v.y * 1000) (res.v.z * 1000)), sat)

/-- The map returned by `get_satellite_info` (lines 336–366): nine decoded
fields read from the stored record plus the two retained line strings. -/
structure SatInfo where
  satnum : String
  epochyr : Int
  epochdays : ℚ
  ecco : ℚ
  inclo : ℚ
  nodeo : ℚ
  argpo : ℚ
  mo : ℚ
  no_kozai : ℚ
  line1 : List Nat
  line2 : List Nat
  deriving DecidableEq, Repr

/-- Result term of `get_satellite_info`: `{:ok, map}` or `{:error, msg}`. -/
inductive InfoResult where
  | ok (info : SatInfo)
  | err (msg : String)
  deriving DecidableEq, Repr

/-- `get_satellite_info(sat)` (lines 322–367): the `initialized` check, then
a map of the stored record's surfaced fields and the two retained lines. -/
def get_satellite_info (sat : SatelliteResource) : InfoResult :=
  if !sat.initialized then
    InfoResult.err "Satellite not initialized"
  else
    InfoResult.ok
      { satnum := sat.satrec.satnum
        epochyr := sat.satrec.epochyr
        epochdays := sat.satrec.epochdays
        ecco := sat.satrec.ecco
        inclo := sat.satrec.inclo
        nodeo := sat.satrec.nodeo
        argpo := sat.satrec.argpo
        mo := sat.satrec.mo
        no_kozai := sat.satrec.no_kozai
        line1 := sat.line1
        line2 := sat.line2 }

/-- The NIF export table `nif_funcs` (lines 386–395): name and arity of every
operation the native library exposes. -/
def nif_funcs : List (String × Nat) :=
  [("propagate_tle", 3),
   ("propagate_tle_batch", 3),
   ("init_satellite", 2),
   ("propagate_satellite", 2),
   ("get_satellite_info", 1)]

/-
  The batch service boundary. The repository is an Elixir package; its
  Elixir wrapper module (the spec's ValidationLayer, which guards the NIF
  calls) is not under src/ — src/ contains only the native binding. The
  wrapper's time-list validation is therefore modelled from the spec.
-/

/-- Modelled from the spec: `ValidateBatchTimes(times)` of the ValidationLayer,
which lives in the package's Elixir wrapper (not under src/): it "fails with
`ValidationError` if the sequence is empty or contains a non-numeric entry;
otherwise passes through", and runs before the batch path touches the NIF. -/
def validateBatchTimes (times : List TimeEntry) : Option (List TimeEntry) :=
  if times.isEmpty then
    none
  else if times.any (fun e => e matches TimeEntry.nonNum) then
    none
  else
    some times

/-- Result of the batch call at the service boundary: a `ValidationError`
result value, or what the NIF produced. -/
inductive ServiceBatchResult where
  | validationError
  | nifBadarg
  | nifErr (msg : String)
  | ok (items : List PropResult)
  deriving DecidableEq, Repr

/-- Modelled from the spec: the public batch call — ValidationLayer first
(`validateBatchTimes`), then the native `propagate_tle_batch`; every
validation failure is returned as an explicit result value. -/
def propagateBatchService (m : SGP4Model) (line1 line2 : List Nat)
    (times : List TimeEntry) : ServiceBatchResult :=
  match validateBatchTimes times with
  | none => ServiceBatchResult.validationError
  | some ts =>
    match propagate_tle_batch m line1 line2 ts with
    | BatchResult.badarg => ServiceBatchResult.nifBadarg
    | BatchResult.err msg => ServiceBatchResult.nifErr msg
    | BatchResult.ok items => ServiceBatchResult.ok items

/-
  Concrete instances of the external model, used to evaluate the binding
  layer at explicit inputs. `baseRec` is a record with `error = 0`;
  `okModel` decodes every line pair to it and always propagates
  successfully to position (7000, 0, 0) km, velocity (1, 2, 3) km/s;
  `failModel` decodes successfully but every propagation fails with the
  library's error code 6 (satellite decay), the record mutated accordingly.
-/

/-- A decoded `elsetrec` with `error = 0` and integer-valued fields. -/
def baseRec : Elsetrec :=
  { error := 0
    satnum := "25544"
    epochyr := 24
    epochdays := 100
    ecco := 0
    inclo := 51
    nodeo := 10
    argpo := 20
    mo := 30
    no_kozai := 15
    scratch := 7 }

/-- An external model whose decode always succeeds (yielding `baseRec`) and
whose propagation always succeeds with fixed raw km outputs. -/
def okModel : SGP4Model :=
  { twoline2rv := fun _ _ => baseRec
    sgp4 := fun sr _ =>
      { satrec := sr, ok := true, r := Vec3.mk 7000 0 0, v := Vec3.mk 1 2 3 } }

/-- An external model whose decode always succeeds but whose propagation
always fails with error code 6, as a decayed satellite does. -/
def failModel : SGP4Model :=
  { twoline2rv := fun _ _ => baseRec
    sgp4 := fun sr _ =>
      { satrec := { sr with error := 6 }, ok := false,
        r := Vec3.mk 0 0 0, v := Vec3.mk 0 0 0 } }

/-- The `{:ok, ...}` term okModel's propagation always yields: raw
(7000, 0, 0) km and (1, 2, 3) km/s scaled by 1000. -/
def okItem : PropResult :=
  PropResult.ok (Vec3.mk 7000000 0 0) (Vec3.mk 1000 2000 3000)

/-- The resource `init_satellite okModel [49] [50]` builds. -/
def satOk : SatelliteResource :=
  { satrec := baseRec, line1 := [49], line2 := [50], initialized := true }

/-
  Shared helper lemmas.
-/

theorem extractTimes_map_num (ts : List ℚ) :
    extractTimes (ts.map TimeEntry.num) = some ts := by
  induction ts with
  | nil => rfl
  | cons t rest ih => simp [extractTimes, ih]

theorem cString_of_no_nul (l : List Nat) (h : 0 ∉ l) : cString l = l := by
  unfold cString
  rw [List.takeWhile_eq_self_iff]
  intro x hx
  simp only [ne_eq, decide_eq_true_eq]
  exact fun hx0 => h (hx0 ▸ hx)

theorem init_satellite_ok_elim (m : SGP4Model) (l1 l2 : List Nat)
    (sat : SatelliteResource) (h : init_satellite m l1 l2 = InitResult.ok sat) :
    linesTooLong l1 l2 = false ∧ (m.twoline2rv l1 l2).error = 0 ∧
      sat = { satrec := m.twoline2rv l1 l2
              line1 := cString l1
              line2 := cString l2
              initialized := true } := by
  unfold init_satellite initDecode at h
  by_cases hL : linesTooLong l1 l2 = true
  · simp [hL] at h
  · simp only [Bool.not_eq_true] at hL
    by_cases hE : (m.twoline2rv l1 l2).error = 0
    · refine ⟨hL, hE, ?_⟩
      simp [hL, hE] at h
      exact h.symm
    · simp [hL, hE] at h

theorem propagate_satellite_snd (m : SGP4Model) (sat : SatelliteResource) (t : ℚ) :
    (propagate_satellite m sat t).2 = sat := by
  unfold propagate_satellite
  split
  · rfl
  · dsimp only
    split <;> rfl

theorem propErr_ne_notInit (s : String) :
    "Propagation error: " ++ s ≠ "Satellite not initialized" := by
  intro h
  have h2 : ("Propagation error: " ++ s).data.head? = some 'S' := by rw [h]; rfl
  rw [String.data_append] at h2
  have h3 : ("Propagation error: ".data ++ s.data).head? = some 'P' := rfl
  rw [h2] at h3
  simp at h3

theorem ok_init_eval : init_satellite okModel [49] [50] = InitResult.ok satOk := by
  decide

/-
  Claims.
-/

/-- C2: for every external model, line pair and time offset, if handle
creation succeeds then propagating the handle returns exactly what the
single-shot call on the same lines and time returns. -/
theorem c2_single_eq_handle (m : SGP4Model) (l1 l2 : List Nat) (t : ℚ)
    (sat : SatelliteResource) (h : init_satellite m l1 l2 = InitResult.ok sat) :
    (propagate_satellite m sat t).1 = propagate_tle m l1 l2 t := by
  obtain ⟨hL, hE, hsat⟩ := init_satellite_ok_elim m l1 l2 sat h
  subst hsat
  unfold propagate_satellite propagate_tle tleDecodeAndPropagate
  simp only [hL, hE, Bool.not_true, Bool.false_eq_true, if_false, ne_eq,
    not_true_eq_false, Bool.not_eq_true]
  split <;> rfl

/-- C2 witness: at the concrete external model `okModel`, the handle created
from lines [49], [50] propagates at t = 5 to the single-shot result. -/
theorem c2_witness :
    (propagate_satellite okModel satOk 5).1 = propagate_tle okModel [49] [50] 5 :=
  c2_single_eq_handle okModel [49] [50] 5 satOk ok_init_eval

/-- C3: a `propagate_satellite` call returns the stored resource unchanged
(the propagation runs on a private copy of the template), so a second call
on the resource it leaves behind, with the same time offset, returns the
same output, and the resource is still unchanged. -/
theorem c3_handle_frame (m : SGP4Model) (sat : SatelliteResource) (t : ℚ) :
    (propagate_satellite m sat t).2 = sat ∧
    (propagate_satellite m (propagate_satellite m sat t).2 t).1 =
      (propagate_satellite m sat t).1 ∧
    (propagate_satellite m (propagate_satellite m sat t).2 t).2 = sat := by
  rw [propagate_satellite_snd]
  exact ⟨rfl, rfl, propagate_satellite_snd m sat t⟩

/-- C10: every resource a successful `init_satellite` returns has
`initialized = true`; `propagate_satellite` leaves the flag set, and neither
`propagate_satellite` nor `get_satellite_info` can return the
"Satellite not initialized" error on such a resource. -/
theorem c10_initialized_invariant (m : SGP4Model) (l1 l2 : List Nat) (t : ℚ)
    (sat : SatelliteResource) (h : init_satellite m l1 l2 = InitResult.ok sat) :
    sat.initialized = true ∧
    ((propagate_satellite m sat t).2).initialized = true ∧
    (propagate_satellite m sat t).1 ≠ PropResult.err "Satellite not initialized" ∧
    get_satellite_info sat ≠ InfoResult.err "Satellite not initialized" := by
  obtain ⟨hL, hE, hsat⟩ := init_satellite_ok_elim m l1 l2 sat h
  have hinit : sat.initialized = true := by rw [hsat]
  refine ⟨hinit, by rw [propagate_satellite_snd]; exact hinit, ?_, ?_⟩
  · unfold propagate_satellite
    simp only [hinit, Bool.not_true, Bool.false_eq_true, if_false]
    split
    · intro hc
      simp only [PropResult.err.injEq] at hc
      exact propErr_ne_notInit _ hc
    · simp
  · unfold get_satellite_info
    simp [hinit]

/-- C10 witness: at the concrete external model `okModel` and the resource
created from lines [49], [50], the flag is set and the uninitialized error
branches are not taken at t = 5. -/
theorem c10_witness :
    satOk.initialized = true ∧
    ((propagate_satellite okModel satOk 5).2).initialized = true ∧
    (propagate_satellite okModel satOk 5).1 ≠
      PropResult.err "Satellite not initialized" ∧
    get_satellite_info satOk ≠ InfoResult.err "Satellite not initialized" :=
  c10_initialized_invariant okModel [49] [50] 5 satOk ok_init_eval

/-- C8 counterexample: under an external model whose decode accepts the
lines, handle creation on a first line containing an embedded NUL byte
(here bytes [65, 0, 66], well under the 70-byte limit) stores only the bytes
before the NUL — `std::string(tle1)` stops at the terminator — so
`get_satellite_info` reports line1 = [65], not the supplied [65, 0, 66]. -/
theorem c8_counterexample :
    init_satellite okModel [65, 0, 66] [67, 68] =
      InitResult.ok
        { satrec := baseRec, line1 := [65], line2 := [67, 68], initialized := true } ∧
    get_satellite_info
        { satrec := baseRec, line1 := [65], line2 := [67, 68], initialized := true } =
      InfoResult.ok
        { satnum := "25544", epochyr := 24, epochdays := 100, ecco := 0, inclo := 51,
          nodeo := 10, argpo := 20, mo := 30, no_kozai := 15,
          line1 := [65], line2 := [67, 68] } ∧
    ([65] : List Nat) ≠ [65, 0, 66] := by
  exact ⟨by decide, by decide, by decide⟩

/-- C8 (amended): for every line pair free of NUL bytes on which handle
creation succeeds, `get_satellite_info` returns the two lines byte-for-byte
as supplied; a line with an embedded NUL byte is instead truncated at the
NUL in the stored copy. -/
theorem c8_roundtrip_no_nul (m : SGP4Model) (l1 l2 : List Nat)
    (sat : SatelliteResource) (h : init_satellite m l1 l2 = InitResult.ok sat)
    (h1 : 0 ∉ l1) (h2 : 0 ∉ l2) :
    get_satellite_info sat =
      InfoResult.ok
        { satnum := sat.satrec.satnum, epochyr := sat.satrec.epochyr,
          epochdays := sat.satrec.epochdays, ecco := sat.satrec.ecco,
          inclo := sat.satrec.inclo, nodeo := sat.satrec.nodeo,
          argpo := sat.satrec.argpo, mo := sat.satrec.mo,
          no_kozai := sat.satrec.no_kozai, line1 := l1, line2 := l2 } := by
  obtain ⟨hL, hE, hsat⟩ := init_satellite_ok_elim m l1 l2 sat h
  subst hsat
  unfold get_satellite_info
  simp [cString_of_no_nul l1 h1, cString_of_no_nul l2 h2]

/-- C8 witness: concrete NUL-free lines [49] and [50] under `okModel` round-trip
through creation and info byte-for-byte. -/
theorem c8_witness :
    get_satellite_info satOk =
      InfoResult.ok
        { satnum := satOk.satrec.satnum, epochyr := satOk.satrec.epochyr,
          epochdays := satOk.satrec.epochdays, ecco := satOk.satrec.ecco,
          inclo := satOk.satrec.inclo, nodeo := satOk.satrec.nodeo,
          argpo := satOk.satrec.argpo, mo := satOk.satrec.mo,
          no_kozai := satOk.satrec.no_kozai, line1 := [49], line2 := [50] } :=
  c8_roundtrip_no_nul okModel [49] [50] satOk ok_init_eval
    (by decide) (by decide)

/-- C9 counterexample: the NIF export table — the complete native interface —
consists of exactly the five operations below; no release operation of any
name is exposed, so the claimed `ReleaseHandle` operation does not exist. -/
theorem c9_counterexample :
    nif_funcs.map Prod.fst =
      ["propagate_tle", "propagate_tle_batch", "init_satellite",
       "propagate_satellite", "get_satellite_info"] ∧
    ((nif_funcs.map Prod.fst).any fun n =>
      n == "release_satellite" || n == "release_handle" ||
      n == "deinit_satellite" || n == "destroy_satellite" ||
      n == "free_satellite") = false := by
  exact ⟨by decide, by decide⟩

/-- C9 (amended): the service exposes no explicit release operation — the
export table holds exactly the five operations listed — and no exposed
handle operation mutates or deallocates a resource (`propagate_satellite`
returns the stored resource unchanged), destruction being left entirely to
the host finalizer, which the runtime invokes at most once per resource. -/
theorem c9_no_release_exposed (m : SGP4Model) (sat : SatelliteResource) (t : ℚ) :
    nif_funcs =
      [("propagate_tle", 3), ("propagate_tle_batch", 3), ("init_satellite", 2),
       ("propagate_satellite", 2), ("get_satellite_info", 1)] ∧
    (propagate_satellite m sat t).2 = sat := by
  exact ⟨rfl, propagate_satellite_snd m sat t⟩

theorem batch_ok_elim (m : SGP4Model) (l1 l2 : List Nat)
    (entries : List TimeEntry) (items : List PropResult)
    (h : propagate_tle_batch m l1 l2 entries = BatchResult.ok items) :
    ∃ ts, extractTimes entries = some ts ∧ linesTooLong l1 l2 = false ∧
      (m.twoline2rv l1 l2).error = 0 ∧
      items = ts.map (batchItem m (m.twoline2rv l1 l2)) := by
  unfold propagate_tle_batch batchDecodeAndPropagate at h
  by_cases hlen : entries.length = 0
  · simp [hlen] at h
  · simp only [hlen, if_false] at h
    cases hx : extractTimes entries with
    | none => rw [hx] at h; exact BatchResult.noConfusion h
    | some ts =>
      rw [hx] at h
      refine ⟨ts, rfl, ?_⟩
      by_cases hL : linesTooLong l1 l2 = true
      · simp [hL] at h
      · simp only [Bool.not_eq_true] at hL
        by_cases hE : (m.twoline2rv l1 l2).error = 0
        · refine ⟨hL, hE, ?_⟩
          simp [hL, hE] at h
          exact h.symm
        · simp [hL, hE] at h

theorem batchItem_eq_toBatchOutcome (m : SGP4Model) (l1 l2 : List Nat) (t : ℚ)
    (hL : linesTooLong l1 l2 = false) (hE : (m.twoline2rv l1 l2).error = 0) :
    batchItem m (m.twoline2rv l1 l2) t = toBatchOutcome (propagate_tle m l1 l2 t) := by
  unfold batchItem propagate_tle tleDecodeAndPropagate toBatchOutcome
  simp only [hL, hE, Bool.false_eq_true, if_false, ne_eq, not_true_eq_false]
  by_cases hok : (m.sgp4 (m.twoline2rv l1 l2) t).ok = true
  · by_cases herr : (m.sgp4 (m.twoline2rv l1 l2) t).satrec.error = 0
    · simp [hok, herr]
    · simp [hok, herr]
  · simp only [Bool.not_eq_true] at hok
    simp [hok]

/-- C1 counterexample: under an external model whose decode succeeds and
whose propagation fails with library error code 6, the batch call's entry
for time 0 is `{:error, "Propagation failed"}` while the single-shot call on
the same lines and time returns `{:error, "Propagation error: 6"}` — the two
error outcomes are different terms, so entry i does not equal the
single-shot outcome when both fail. -/
theorem c1_counterexample :
    propagate_tle_batch failModel [49] [50] [TimeEntry.num 0] =
      BatchResult.ok [PropResult.err "Propagation failed"] ∧
    propagate_tle failModel [49] [50] 0 = PropResult.err "Propagation error: 6" ∧
    PropResult.err "Propagation failed" ≠ PropResult.err "Propagation error: 6" := by
  exact ⟨by decide, by decide, by decide⟩

/-- C1 (amended): whenever the batch call returns an `{:ok, items}` list for
times T, `items` is exactly the list of single-shot outcomes for the same
lines at each T[i] — same success tuples, produced by the same computation —
except that a failing entry carries the batch path's fixed message
"Propagation failed" in place of the single-shot "Propagation error: code". -/
theorem c1_batch_refines_single (m : SGP4Model) (l1 l2 : List Nat) (ts : List ℚ)
    (items : List PropResult)
    (h : propagate_tle_batch m l1 l2 (ts.map TimeEntry.num) = BatchResult.ok items) :
    items = ts.map (fun t => toBatchOutcome (propagate_tle m l1 l2 t)) := by
  obtain ⟨ts2, hx, hL, hE, hitems⟩ := batch_ok_elim m l1 l2 (ts.map TimeEntry.num) items h
  rw [extractTimes_map_num] at hx
  have hts : ts2 = ts := by injection hx with hx2; exact hx2.symm
  subst hts
  rw [hitems]
  have hfun : batchItem m (m.twoline2rv l1 l2) =
      fun t => toBatchOutcome (propagate_tle m l1 l2 t) :=
    funext (fun t => batchItem_eq_toBatchOutcome m l1 l2 t hL hE)
  rw [hfun]

theorem ok_tle_eval :
    propagate_tle okModel [49] [50] 5 =
      PropResult.ok (Vec3.mk 7000000 0 0) (Vec3.mk 1000 2000 3000) := by
  unfold propagate_tle tleDecodeAndPropagate okModel baseRec linesTooLong
  norm_num

theorem ok_batchItem_eval (t : ℚ) :
    batchItem okModel baseRec t = okItem := by
  unfold batchItem okModel baseRec okItem
  norm_num

theorem ok_batch_eval1 :
    propagate_tle_batch okModel [49] [50] ([(5 : ℚ)].map TimeEntry.num) =
      BatchResult.ok [okItem] := by
  unfold propagate_tle_batch batchDecodeAndPropagate
  rw [extractTimes_map_num]
  have htw : okModel.twoline2rv [49] [50] = baseRec := rfl
  simp only [List.map, List.length_cons, List.length_nil, htw, ok_batchItem_eval]
  norm_num [baseRec, linesTooLong]

theorem ok_batch_eval2 :
    propagate_tle_batch okModel [49] [50] ([(5 : ℚ), 6].map TimeEntry.num) =
      BatchResult.ok [okItem, okItem] := by
  unfold propagate_tle_batch batchDecodeAndPropagate
  rw [extractTimes_map_num]
  have htw : okModel.twoline2rv [49] [50] = baseRec := rfl
  simp only [List.map, List.length_cons, List.length_nil, htw, ok_batchItem_eval]
  norm_num [baseRec, linesTooLong]

/-- C1 witness: the amended equivalence at the concrete model `okModel`,
lines [49], [50] and the one-element time list [5]. -/
theorem c1_witness :
    [okItem] =
      [(5 : ℚ)].map (fun t => toBatchOutcome (propagate_tle okModel [49] [50] t)) :=
  c1_batch_refines_single okModel [49] [50] [5] [okItem] ok_batch_eval1

/-- C4: whenever the batch call returns `{:ok, items}` for an accepted entry
list whose extracted times are ts, `items` has exactly the length of ts and
the entry at each index i is the outcome computed for the time at index i —
the embedding fixes the completion order, and the pre-sized, index-addressed
result buffer of the source ties result i to time i. -/
theorem c4_batch_index_correspondence (m : SGP4Model) (l1 l2 : List Nat)
    (entries : List TimeEntry) (ts : List ℚ) (items : List PropResult)
    (hx : extractTimes entries = some ts)
    (h : propagate_tle_batch m l1 l2 entries = BatchResult.ok items) :
    items.length = ts.length ∧
    ∀ i (hi : i < ts.length) (hi2 : i < items.length),
      items.get ⟨i, hi2⟩ = batchItem m (m.twoline2rv l1 l2) (ts.get ⟨i, hi⟩) := by
  obtain ⟨ts2, hx2, hL, hE, hitems⟩ := batch_ok_elim m l1 l2 entries items h
  rw [hx] at hx2
  have hts : ts2 = ts := by injection hx2 with hx3; exact hx3.symm
  subst hts
  subst hitems
  refine ⟨by simp, ?_⟩
  intro i hi hi2
  simp [List.get_eq_getElem, List.getElem_map]

/-- C4 witness: at `okModel`, lines [49], [50] and times [5, 6], the result
list has length 2 and its entry at index 1 is the outcome for time 6. -/
theorem c4_witness :
    ([okItem, okItem] : List PropResult).length = [(5 : ℚ), 6].length ∧
    ([okItem, okItem] : List PropResult).get ⟨1, by decide⟩ =
      batchItem okModel (okModel.twoline2rv [49] [50]) ([(5 : ℚ), 6].get ⟨1, by decide⟩) :=
  ⟨(c4_batch_index_correspondence okModel [49] [50]
      [TimeEntry.num 5, TimeEntry.num 6] [5, 6] [okItem, okItem]
      (by decide) ok_batch_eval2).1,
   (c4_batch_index_correspondence okModel [49] [50]
      [TimeEntry.num 5, TimeEntry.num 6] [5, 6] [okItem, okItem]
      (by decide) ok_batch_eval2).2 1 (by decide) (by decide)⟩

/-- C5: on every success of each of the three paths — single-shot,
handle-based, batch item — the returned position and velocity are exactly
the raw `sgp4` kilometer outputs with every component multiplied by 1000,
i.e. the spec's uniform `ToSI` conversion `kmToM`. -/
theorem c5_unit_scaling (m : SGP4Model) (l1 l2 : List Nat) (t : ℚ)
    (sat : SatelliteResource) (sr : Elsetrec) :
    (∀ p v, propagate_tle m l1 l2 t = PropResult.ok p v →
       p = kmToM (m.sgp4 (m.twoline2rv l1 l2) t).r ∧
       v = kmToM (m.sgp4 (m.twoline2rv l1 l2) t).v) ∧
    (∀ p v, (propagate_satellite m sat t).1 = PropResult.ok p v →
       p = kmToM (m.sgp4 sat.satrec t).r ∧
       v = kmToM (m.sgp4 sat.satrec t).v) ∧
    (∀ p v, batchItem m sr t = PropResult.ok p v →
       p = kmToM (m.sgp4 sr t).r ∧
       v = kmToM (m.sgp4 sr t).v) := by
  refine ⟨fun p v hpv => ?_, fun p v hpv => ?_, fun p v hpv => ?_⟩
  · unfold propagate_tle tleDecodeAndPropagate at hpv
    split at hpv
    · exact PropResult.noConfusion hpv
    · dsimp only at hpv
      split at hpv
      · exact PropResult.noConfusion hpv
      · split at hpv
        · exact PropResult.noConfusion hpv
        · injection hpv with hp hv
          subst hp
          subst hv
          exact ⟨rfl, rfl⟩
  · unfold propagate_satellite at hpv
    split at hpv
    · exact PropResult.noConfusion hpv
    · dsimp only at hpv
      split at hpv
      · exact PropResult.noConfusion hpv
      · injection hpv with hp hv
        subst hp
        subst hv
        exact ⟨rfl, rfl⟩
  · unfold batchItem at hpv
    dsimp only at hpv
    split at hpv
    · injection hpv with hp hv
      subst hp
      subst hv
      exact ⟨rfl, rfl⟩
    · exact PropResult.noConfusion hpv

/-- C5 witness: at `okModel` with raw output (7000, 0, 0) km, (1, 2, 3)
km/s, the single-shot result (7000000, 0, 0), (1000, 2000, 3000) is the raw
output scaled by 1000. -/
theorem c5_witness :
    Vec3.mk 7000000 0 0 = kmToM (okModel.sgp4 (okModel.twoline2rv [49] [50]) 5).r ∧
    Vec3.mk 1000 2000 3000 = kmToM (okModel.sgp4 (okModel.twoline2rv [49] [50]) 5).v :=
  (c5_unit_scaling okModel [49] [50] 5 satOk baseRec).1
    (Vec3.mk 7000000 0 0) (Vec3.mk 1000 2000 3000) ok_tle_eval

/-- C6: at the service boundary — the ValidationLayer modelled from the
spec in front of the native batch call — a batch whose time sequence is
empty or contains a non-numeric entry fails with a ValidationError returned
as an explicit result value (in particular it is not the native badarg
exception, and no path aborts the caller). -/
theorem c6_batch_validation (m : SGP4Model) (l1 l2 : List Nat)
    (times : List TimeEntry) (h : times = [] ∨ TimeEntry.nonNum ∈ times) :
    propagateBatchService m l1 l2 times = ServiceBatchResult.validationError := by
  unfold propagateBatchService validateBatchTimes
  rcases h with h | h
  · subst h
    rfl
  · have hany : (times.any fun e => e matches TimeEntry.nonNum) = true := by
      rw [List.any_eq_true]
      exact ⟨TimeEntry.nonNum, h, rfl⟩
    by_cases he : times.isEmpty <;> simp [he, hany]

/-- C6 witness: the empty time list at concrete inputs yields the
ValidationError result value. -/
theorem c6_witness :
    propagateBatchService okModel [49] [50] [] = ServiceBatchResult.validationError :=
  c6_batch_validation okModel [49] [50] [] (Or.inl rfl)

/-- C7: a 69-byte element line passes the shared length guard in all three
operations, which then hand exactly the supplied bytes to the decode step
(the post-validation bodies receive l1 and l2 unchanged), while a line of 70
or more bytes makes each of the single-shot, batch and handle-creation
operations fail with the "TLE lines too long" error tuple. -/
theorem c7_line_length_validation (m : SGP4Model) (l1 l2 l3 l4 : List Nat)
    (t : ℚ) (ts : List ℚ)
    (h1 : l1.length = 69) (h2 : l2.length = 69)
    (hbad : 70 ≤ l3.length ∨ 70 ≤ l4.length) :
    linesTooLong l1 l2 = false ∧
    propagate_tle m l1 l2 t = tleDecodeAndPropagate m l1 l2 t ∧
    propagate_tle_batch m l1 l2 ((t :: ts).map TimeEntry.num) =
      batchDecodeAndPropagate m l1 l2 (t :: ts) ∧
    init_satellite m l1 l2 = initDecode m l1 l2 ∧
    propagate_tle m l3 l4 t = PropResult.err "TLE lines too long" ∧
    propagate_tle_batch m l3 l4 ((t :: ts).map TimeEntry.num) =
      BatchResult.err "TLE lines too long" ∧
    init_satellite m l3 l4 = InitResult.err "TLE lines too long" := by
  have hL : linesTooLong l1 l2 = false := by
    unfold linesTooLong
    simp [h1, h2]
  have hL2 : linesTooLong l3 l4 = true := by
    unfold linesTooLong
    rcases hbad with hb | hb <;> simp [hb]
  refine ⟨hL, ?_, ?_, ?_, ?_, ?_, ?_⟩
  · unfold propagate_tle
    rw [hL]
    rfl
  · unfold propagate_tle_batch
    rw [extractTimes_map_num, hL]
    simp
  · unfold init_satellite
    rw [hL]
    rfl
  · unfold propagate_tle
    rw [hL2]
    rfl
  · unfold propagate_tle_batch
    rw [extractTimes_map_num, hL2]
    simp
  · unfold init_satellite
    rw [hL2]
    rfl

/-- C7 witness: a 69-byte line of '1' bytes passes and is forwarded intact;
a 70-byte line is rejected by all three operations. -/
theorem c7_witness :
    linesTooLong (List.replicate 69 49) (List.replicate 69 50) = false ∧
    propagate_tle okModel (List.replicate 69 49) (List.replicate 69 50) 5 =
      tleDecodeAndPropagate okModel (List.replicate 69 49) (List.replicate 69 50) 5 ∧
    propagate_tle_batch okModel (List.replicate 69 49) (List.replicate 69 50)
        ([(5 : ℚ)].map TimeEntry.num) =
      batchDecodeAndPropagate okModel (List.replicate 69 49) (List.replicate 69 50) [5] ∧
    init_satellite okModel (List.replicate 69 49) (List.replicate 69 50) =
      initDecode okModel (List.replicate 69 49) (List.replicate 69 50) ∧
    propagate_tle okModel (List.replicate 70 49) (List.replicate 69 50) 5 =
      PropResult.err "TLE lines too long" ∧
    propagate_tle_batch okModel (List.replicate 70 49) (List.replicate 69 50)
        ([(5 : ℚ)].map TimeEntry.num) =
      BatchResult.err "TLE lines too long" ∧
    init_satellite okModel (List.replicate 70 49) (List.replicate 69 50) =
      InitResult.err "TLE lines too long" :=
  c7_line_length_validation okModel (List.replicate 69 49) (List.replicate 69 50)
    (List.replicate 70 49) (List.replicate 69 50) 5 []
    (by simp) (by simp) (Or.inl (by simp))

end Sgp4Nif
